import Mathlib

/-!
Verification development for the SmartLibrarian repository.

Shallow embedding of the Python sources:
- `rag.py` (`_make_snippet`, `retrieval_candidates`),
- `db.py` (`parse_books`),
- `moderation.py` (`moderate_or_pass`),
- `image_generation.py` (the body of the background job spawned by `spawn_image_job`),
- `llm_tools.py` (`get_summary_by_title`, `book_summaries_dict`),
- `llm.py` (`_build_messages`, `_handle_tool_call_once`, `make_llm_recommendation`).

External services (the Chroma vector index, the OpenAI chat/moderation/image
backends, the filesystem) are modelled as explicit parameters: functions or
records supplied by the caller of each embedded operation.  Python strings are
modelled as Lean `String`/`List Char` (code points), Python `None` for an
optional chat `content` field is conflated with the empty string, which is
behaviourally faithful because the source only ever tests such fields for
truthiness (`x or default`).
-/

namespace SmartLibrarian

/-- Python whitespace test for `str.strip` / `str.rstrip` (ASCII subset that
occurs in this code base). -/
def isPySpace (c : Char) : Bool := c.isWhitespace

/-- Python `s.replace("\n", " ")` on a code-point list. -/
def pyReplaceNl (s : List Char) : List Char :=
  s.map (fun c => if c = '\n' then ' ' else c)

/-- Python `s.lstrip()`. -/
def pyLstrip (s : List Char) : List Char := s.dropWhile isPySpace

/-- Python `s.rstrip()`. -/
def pyRstrip (s : List Char) : List Char := (s.reverse.dropWhile isPySpace).reverse

/-- Python `s.strip()`. -/
def pyStrip (s : List Char) : List Char := pyRstrip (pyLstrip s)

/-- Python `s.strip()` on `String`. -/
def pyStripStr (s : String) : String := ⟨pyStrip s.toList⟩

/-- Embedding of `rag._make_snippet(text, max_len)`:
collapse newlines to spaces, strip, and truncate to `max_len` code points,
appending `"..."` after a right-strip when truncation happened. -/
def make_snippet (text : List Char) (max_len : Nat) : List Char :=
  if text = [] then []
  else
    let one_line := pyStrip (pyReplaceNl text)
    if one_line.length ≤ max_len then one_line
    else pyRstrip (one_line.take max_len) ++ "...".toList

theorem mem_pyRstrip {c : Char} {s : List Char} (h : c ∈ pyRstrip s) : c ∈ s := by
  unfold pyRstrip at h
  rw [List.mem_reverse] at h
  have := (List.dropWhile_sublist (p := isPySpace) (l := s.reverse)).subset h
  rwa [List.mem_reverse] at this

theorem mem_pyStrip {c : Char} {s : List Char} (h : c ∈ pyStrip s) : c ∈ s := by
  unfold pyStrip pyLstrip at h
  exact (List.dropWhile_sublist (p := isPySpace) (l := s)).subset (mem_pyRstrip h)

theorem pyRstrip_length_le (s : List Char) : (pyRstrip s).length ≤ s.length := by
  unfold pyRstrip
  rw [List.length_reverse]
  calc (s.reverse.dropWhile isPySpace).length ≤ s.reverse.length :=
        (List.dropWhile_sublist (p := isPySpace) (l := s.reverse)).length_le
    _ = s.length := List.length_reverse s

theorem newline_not_mem_make_snippet (text : List Char) (max_len : Nat) :
    Char.ofNat 10 ∉ make_snippet text max_len := by
  simp only [make_snippet]
  intro h
  split at h
  · simp at h
  · split at h
    · have hmem := mem_pyStrip h
      unfold pyReplaceNl at hmem
      rcases List.mem_map.mp hmem with ⟨c, _, hc⟩
      by_cases hnl : c = '\n' <;> simp [hnl] at hc
    · rcases List.mem_append.mp h with h1 | h1
      · have hmem := mem_pyRstrip h1
        have hmem2 := List.take_subset _ _ hmem
        have hmem3 := mem_pyStrip hmem2
        unfold pyReplaceNl at hmem3
        rcases List.mem_map.mp hmem3 with ⟨c, _, hc⟩
        by_cases hnl : c = '\n' <;> simp [hnl] at hc
      · revert h1; decide

theorem make_snippet_length_le (text : List Char) (max_len : Nat) :
    (make_snippet text max_len).length ≤ max_len + 3 := by
  simp only [make_snippet]
  split
  · simp
  · split
    · omega
    · rw [List.length_append]
      have h1 : (pyRstrip ((pyStrip (pyReplaceNl text)).take max_len)).length ≤ max_len := by
        calc (pyRstrip ((pyStrip (pyReplaceNl text)).take max_len)).length
            ≤ ((pyStrip (pyReplaceNl text)).take max_len).length := pyRstrip_length_le _
          _ ≤ max_len := by rw [List.length_take]; omega
      simp only [show ("...".toList).length = 3 from rfl]
      omega

theorem make_snippet_truncated_ends_ellipsis (text : List Char) (max_len : Nat)
    (h : max_len < (pyStrip (pyReplaceNl text)).length) :
    "...".toList <:+ make_snippet text max_len := by
  simp only [make_snippet]
  have hne : text ≠ [] := by
    intro he
    subst he
    simp [pyReplaceNl, pyStrip, pyLstrip, pyRstrip] at h
  rw [if_neg hne, if_neg (by omega)]
  exact List.suffix_append _ _

/-- A metadata entry of a Chroma query result: either a Python dict (modelled
as an association list with string values, as used by this code base) or any
non-dict value, which `retrieval_candidates` discards via `isinstance`. -/
inductive MetaEntry where
  | dict (entries : List (String × String))
  | nondict
deriving DecidableEq, Repr

/-- First batch of a Chroma `coll.query(...)` result, after the
`(res.get(...) or [[...]])[0]` extraction in `retrieval_candidates`:
parallel lists of ids, document texts, metadata entries and distances.
Distances are opaque to this code (only copied), so their type is a
parameter `D`. -/
structure QueryRes (D : Type) where
  ids : List String
  docs : List String
  metas : List MetaEntry
  dists : List D
deriving Repr

/-- The candidate record built by `retrieval_candidates` (stable output
schema: title, snippet, distance, id). -/
structure Candidate (D : Type) where
  title : String
  snippet : List Char
  distance : Option D
  id : String
deriving DecidableEq, Repr

/-- The loop body of `retrieval_candidates` at index `i`:
`doc_text = docs[i] if i < len(docs) else ""`,
`meta = metas[i] if i < len(metas) and isinstance(metas[i], dict) else` the
empty dict,
`dist = dists[i] if i < len(dists) else None`,
`title = meta.get("title") or doc_id` (Python `or`: empty string is falsy). -/
def buildCandidate {D : Type} (res : QueryRes D) (snippet_len : Nat) (i : Nat) :
    Candidate D :=
  let doc_id := (res.ids[i]?).getD ""
  let doc_text := (res.docs[i]?).getD ""
  let meta := match res.metas[i]? with
    | some (MetaEntry.dict entries) => entries
    | _ => []
  let dist := res.dists[i]?
  let title := match List.lookup "title" meta with
    | some t => if t = "" then doc_id else t
    | none => doc_id
  { title := title
    snippet := make_snippet doc_text.toList snippet_len
    distance := dist
    id := doc_id }

/-- Embedding of `rag.retrieval_candidates` from the query result on:
`for i in range(len(ids))`, appending one candidate record per id.  The call
`coll.query(query_texts=[query_text], n_results=k, ...)` to the external
Corpus Index is modelled by taking its result `res` as input. -/
def retrieval_candidates {D : Type} (res : QueryRes D) (snippet_len : Nat) :
    List (Candidate D) :=
  (List.range res.ids.length).map (buildCandidate res snippet_len)

theorem retrieval_candidates_length {D : Type} (res : QueryRes D) (slen : Nat) :
    (retrieval_candidates res slen).length = res.ids.length := by
  simp [retrieval_candidates]

theorem map_range_get?_getD {α : Type} (l : List α) (d : α) :
    (List.range l.length).map (fun i => l[i]?.getD d) = l := by
  induction l with
  | nil => rfl
  | cons x xs ih =>
    rw [List.length_cons, List.range_succ_eq_map, List.map_cons, List.map_map]
    simp only [List.getElem?_cons_zero, Option.getD_some, Function.comp_def,
      List.getElem?_cons_succ]
    exact congrArg (x :: ·) ih

theorem retrieval_candidates_ids {D : Type} (res : QueryRes D) (slen : Nat) :
    (retrieval_candidates res slen).map Candidate.id = res.ids := by
  unfold retrieval_candidates
  rw [List.map_map]
  have : (Candidate.id ∘ buildCandidate res slen) =
      fun i => ((res.ids[i]?).getD "") := by
    funext i
    simp [buildCandidate]
  rw [this, map_range_get?_getD]

/-- The raw title field of a query-result metadata entry: `some t` exactly
when the entry is a dict with a `"title"` key (value `t`), `none` when the
entry is absent or not a dict. -/
def metaTitleRaw : Option MetaEntry → Option String
  | some (MetaEntry.dict entries) => List.lookup "title" entries
  | _ => none

theorem retrieval_candidates_get? {D : Type} (res : QueryRes D) (slen i : Nat)
    (h : i < res.ids.length) :
    (retrieval_candidates res slen)[i]? = some (buildCandidate res slen i) := by
  unfold retrieval_candidates
  rw [List.getElem?_map, List.getElem?_range h]
  rfl

theorem buildCandidate_props {D : Type} (res : QueryRes D) (slen i : Nat) :
    (buildCandidate res slen i).id = (res.ids[i]?).getD "" ∧
    (buildCandidate res slen i).distance = res.dists[i]? ∧
    (res.docs.length ≤ i → (buildCandidate res slen i).snippet = []) ∧
    ((metaTitleRaw (res.metas[i]?) = none ∨
        metaTitleRaw (res.metas[i]?) = some "") →
      (buildCandidate res slen i).title = (buildCandidate res slen i).id) ∧
    (∀ t, metaTitleRaw (res.metas[i]?) = some t → t ≠ "" →
      (buildCandidate res slen i).title = t) := by
  refine ⟨rfl, rfl, ?_, ?_, ?_⟩
  · intro hdoc
    have hnone : res.docs[i]? = none := List.getElem?_eq_none (by omega)
    simp [buildCandidate, hnone, make_snippet]
  · intro hcase
    simp only [buildCandidate]
    rcases hmeta : res.metas[i]? with _ | m
    · simp [metaTitleRaw, hmeta] at hcase ⊢
    · cases m with
      | nondict => simp [metaTitleRaw, hmeta] at hcase ⊢
      | dict entries =>
        simp only [metaTitleRaw, hmeta] at hcase
        rcases hcase with hcase | hcase <;> simp [hcase]
  · intro t ht htne
    simp only [buildCandidate]
    rcases hmeta : res.metas[i]? with _ | m
    · simp [metaTitleRaw, hmeta] at ht
    · cases m with
      | nondict => simp [metaTitleRaw, hmeta] at ht
      | dict entries =>
        simp only [metaTitleRaw, hmeta] at ht
        simp [ht, htne]

/-- C10: candidate construction is total, one candidate per returned id, even
when `documents` / `metadatas` / `distances` are shorter than `ids` or hold
non-dict metadata: missing document text gives an empty snippet, the distance
is copied exactly when present and is null otherwise, and the title falls
back to the id whenever the metadata title is absent or empty. -/
theorem claim_C10_candidate_construction_total {D : Type} (res : QueryRes D)
    (slen : Nat) :
    (retrieval_candidates res slen).length = res.ids.length ∧
    ∀ i c, (retrieval_candidates res slen)[i]? = some c →
      c.id = (res.ids[i]?).getD "" ∧
      c.distance = res.dists[i]? ∧
      (res.docs.length ≤ i → c.snippet = []) ∧
      ((metaTitleRaw (res.metas[i]?) = none ∨
          metaTitleRaw (res.metas[i]?) = some "") → c.title = c.id) ∧
      (∀ t, metaTitleRaw (res.metas[i]?) = some t → t ≠ "" → c.title = t) := by
  refine ⟨retrieval_candidates_length res slen, ?_⟩
  intro i c hc
  have hi : i < res.ids.length := by
    by_contra hge
    rw [List.getElem?_eq_none (by
      rw [retrieval_candidates_length res slen]; omega)] at hc
    exact Option.noConfusion hc
  rw [retrieval_candidates_get? res slen i hi] at hc
  cases hc
  exact buildCandidate_props res slen i

/-- Query result used to exercise the C10 witness: two ids, but only one
document, one (non-dict) metadata entry and no distances. -/
def resShort : QueryRes Nat :=
  { ids := ["id1", "id2"]
    docs := ["Some document text"]
    metas := [MetaEntry.nondict]
    dists := [] }

theorem claim_C10_witness :
    (retrieval_candidates resShort 220)[1]? =
        some (buildCandidate resShort 220 1) ∧
    (buildCandidate resShort 220 1).id = "id2" ∧
    (buildCandidate resShort 220 1).distance = none ∧
    (buildCandidate resShort 220 1).snippet = [] ∧
    (buildCandidate resShort 220 1).title = (buildCandidate resShort 220 1).id := by
  have h := (claim_C10_candidate_construction_total resShort 220).2 1
    (buildCandidate resShort 220 1)
    (retrieval_candidates_get? resShort 220 1 (by decide))
  exact ⟨retrieval_candidates_get? resShort 220 1 (by decide),
    h.1, h.2.1, h.2.2.1 (by decide), h.2.2.2.1 (Or.inl rfl)⟩

/-- C4: from the backend result on, retrieval preserves the order that the
Corpus Index
returned, one-to-one (no local re-ranking), yields at most `k`
candidates whenever the index honours `n_results=k`, and an empty result set
yields an empty sequence rather than an error. -/
theorem claim_C4_retrieve_order_and_bound {D : Type} (res : QueryRes D)
    (k slen : Nat) (hk : res.ids.length ≤ k) :
    (retrieval_candidates res slen).length ≤ k ∧
    (retrieval_candidates res slen).map Candidate.id = res.ids ∧
    (res.ids = [] → retrieval_candidates res slen = []) := by
  refine ⟨?_, retrieval_candidates_ids res slen, ?_⟩
  · rw [retrieval_candidates_length res slen]; exact hk
  · intro hempty
    unfold retrieval_candidates
    rw [hempty]
    rfl

/-- Empty query result for the C4 witness. -/
def resEmpty : QueryRes Nat := { ids := [], docs := [], metas := [], dists := [] }

theorem claim_C4_witness :
    (retrieval_candidates resEmpty 220).length ≤ 5 ∧
    (retrieval_candidates resEmpty 220).map Candidate.id = resEmpty.ids ∧
    retrieval_candidates resEmpty 220 = [] := by
  have h := claim_C4_retrieve_order_and_bound resEmpty 5 220 (by decide)
  exact ⟨h.1, h.2.1, h.2.2 rfl⟩

/-- C5 (amended): each snippet is a single line (no newline code point
survives), has length at most `snippet_max_len + 3` (the truncation marker
may extend past the limit), and ends with the `"..."` marker whenever the
source text was truncated (its collapsed, stripped form exceeds
`snippet_max_len`). -/
theorem claim_C5_snippet_shape (text : List Char) (max_len : Nat)
    (_hpos : 0 < max_len) :
    '\n' ∉ make_snippet text max_len ∧
    (make_snippet text max_len).length ≤ max_len + 3 ∧
    (max_len < (pyStrip (pyReplaceNl text)).length →
      "...".toList <:+ make_snippet text max_len) := by
  refine ⟨?_, make_snippet_length_le text max_len, ?_⟩
  · have h := newline_not_mem_make_snippet text max_len
    simpa using h
  · intro htr
    exact make_snippet_truncated_ends_ellipsis text max_len htr

theorem claim_C5_witness :
    '\n' ∉ make_snippet "abcdef line".toList 3 ∧
    (make_snippet "abcdef line".toList 3).length ≤ 3 + 3 ∧
    "...".toList <:+ make_snippet "abcdef line".toList 3 := by
  have h := claim_C5_snippet_shape "abcdef line".toList 3 (by decide)
  exact ⟨h.1, h.2.1, h.2.2 (by decide)⟩

/-- C5 counterexample to the claim as stated: with `max_len = 3` and source
`"abcdef"` the snippet `"abc..."` is longer than `max_len`; and with
`max_len = 10` the untruncated source `"ab..."` already yields an
ellipsis-terminated snippet, so ellipsis-termination is not equivalent to
truncation. -/
theorem claim_C5_counterexample :
    ¬ ((make_snippet "abcdef".toList 3).length ≤ 3) ∧
    make_snippet "ab...".toList 10 = "ab...".toList ∧
    ¬ (10 < (pyStrip (pyReplaceNl "ab...".toList)).length) := by
  decide

/-- Python `line.startswith("## Title:")` from `db.parse_books`. -/
def isTitleMarker (line : String) : Bool :=
  "## Title:".toList.isPrefixOf line.toList

/-- Python `line[len("## Title:"):]` (code-point slicing). -/
def dropMarker (line : String) : String := ⟨line.toList.drop 9⟩

/-- Python `"\n".join(lines)`. -/
def joinNl (lines : List String) : String :=
  ⟨List.intercalate "\n".toList (lines.map String.toList)⟩

/-- The title extracted from a `## Title:` marker line:
`line[len("## Title:"):].strip()`. -/
def markerTitle (line : String) : String := pyStripStr (dropMarker line)

/-- The loop of `db.parse_books`, with the loop state made explicit:
`cur` is `current_title` (`none` = Python `None`) and `acc` is
`current_summary_lines`.  Note that on the first marker (when `cur` is
`none`) the accumulated leading lines are neither flushed nor reset, exactly
as in the source. -/
def parse_books_aux : List String → Option String → List String →
    List String × List String
  | [], none, _acc => ([], [])
  | [], some t, acc => ([t], [pyStripStr (joinNl acc)])
  | line :: rest, cur, acc =>
    if isTitleMarker line then
      match cur with
      | some t =>
        let r := parse_books_aux rest (some (markerTitle line)) []
        (t :: r.1, pyStripStr (joinNl acc) :: r.2)
      | none => parse_books_aux rest (some (markerTitle line)) acc
    else parse_books_aux rest cur (acc ++ [line])

/-- Embedding of `db.parse_books`: the file is given as its list of lines
(each already stripped of its trailing newline, as the source does with
`l.rstrip("\n")`). -/
def parse_books (lines : List String) : List String × List String :=
  parse_books_aux lines none []

theorem parse_books_aux_skip (body rest : List String) (cur : Option String)
    (acc : List String) (hb : ∀ l ∈ body, isTitleMarker l = false) :
    parse_books_aux (body ++ rest) cur acc =
      parse_books_aux rest cur (acc ++ body) := by
  induction body generalizing acc with
  | nil => simp
  | cons x xs ih =>
    have hx : isTitleMarker x = false := hb x (by simp)
    have hxs : ∀ l ∈ xs, isTitleMarker l = false := fun l hl => hb l (by simp [hl])
    rw [List.cons_append]
    show parse_books_aux (x :: (xs ++ rest)) cur acc = _
    rw [show parse_books_aux (x :: (xs ++ rest)) cur acc =
        parse_books_aux (xs ++ rest) cur (acc ++ [x]) by
      simp [parse_books_aux, hx]]
    rw [ih (acc ++ [x]) hxs, List.append_assoc]
    rfl

theorem parse_books_aux_marker_none (line : String) (rest acc : List String)
    (h : isTitleMarker line = true) :
    parse_books_aux (line :: rest) none acc =
      parse_books_aux rest (some (markerTitle line)) acc := by
  simp [parse_books_aux, h]

theorem parse_books_aux_marker_some (line : String) (rest acc : List String)
    (t : String) (h : isTitleMarker line = true) :
    parse_books_aux (line :: rest) (some t) acc =
      (t :: (parse_books_aux rest (some (markerTitle line)) []).1,
       pyStripStr (joinNl acc) ::
         (parse_books_aux rest (some (markerTitle line)) []).2) := by
  simp [parse_books_aux, h]

/-- C7 (amended): `parse_books` on a file of the form
`leading ++ [marker A] ++ bodyA ++ [marker B] ++ bodyB` (neither body nor the
leading lines containing a marker) yields exactly the two titles taken from
the marker lines, with the second summary the normalization of `bodyB` —
but the first summary is the normalization of `leading ++ bodyA`: content
before the first marker is carried into the summary of the first item, not
dropped (it vanishes only when whitespace normalization removes it). -/
theorem claim_C7_parse_books_two_items (leading bodyA bodyB : List String)
    (lineA lineB : String)
    (hl : ∀ l ∈ leading, isTitleMarker l = false)
    (ha : ∀ l ∈ bodyA, isTitleMarker l = false)
    (hb : ∀ l ∈ bodyB, isTitleMarker l = false)
    (hmA : isTitleMarker lineA = true)
    (hmB : isTitleMarker lineB = true) :
    parse_books (leading ++ lineA :: (bodyA ++ lineB :: bodyB)) =
      ([markerTitle lineA, markerTitle lineB],
       [pyStripStr (joinNl (leading ++ bodyA)),
        pyStripStr (joinNl bodyB)]) := by
  unfold parse_books
  rw [parse_books_aux_skip leading _ none [] hl]
  rw [parse_books_aux_marker_none lineA _ _ hmA]
  rw [parse_books_aux_skip bodyA _ (some (markerTitle lineA)) _ ha]
  rw [parse_books_aux_marker_some lineB _ _ _ hmB]
  have hB := parse_books_aux_skip bodyB [] (some (markerTitle lineB)) [] hb
  rw [List.append_nil] at hB
  rw [hB]
  simp [parse_books_aux]

theorem claim_C7_witness :
    parse_books (["", "## Title: A"] ++ ["body A line"] ++
        ["## Title: B", "body B line"]) =
      (["A", "B"], ["body A line", "body B line"]) := by
  have h := claim_C7_parse_books_two_items [""] ["body A line"] ["body B line"]
    "## Title: A" "## Title: B"
    (by decide) (by decide) (by decide) (by decide) (by decide)
  rw [show (["", "## Title: A"] ++ ["body A line"] ++
      ["## Title: B", "body B line"]) =
      ([""] ++ "## Title: A" :: (["body A line"] ++
        "## Title: B" :: ["body B line"])) from rfl]
  rw [h]
  decide

/-- C7 counterexample to the claim as stated: a non-blank line before the
first marker is not ignored — it is prepended to the summary of the first
item. -/
theorem claim_C7_counterexample :
    parse_books ["junk", "## Title: A", "bodyA", "## Title: B", "bodyB"] =
      (["A", "B"], ["junk\nbodyA", "bodyB"]) ∧
    (parse_books ["junk", "## Title: A", "bodyA", "## Title: B", "bodyB"]).2 ≠
      ["bodyA", "bodyB"] := by
  decide

/-- Moderation taxonomy from `moderation.Category`. -/
inductive Category where
  | violence
  | sexual
  | self_harm
  | offensive
deriving DecidableEq, Repr

/-- `moderation.ContentCompliance`, the structured verdict parsed from the
moderation backend. -/
structure ContentCompliance where
  is_violating : Bool
  category : Option Category
  explanation_if_violating : Option String
deriving DecidableEq, Repr

/-- The fixed warning string returned by `moderate_or_pass` on a violation
(the source concatenates two adjacent literals). -/
def moderation_warning : String :=
  "Te rog să folosești un limbaj respectuos. " ++
    "Mesajul tău pare să conțină conținut nepotrivit."

/-- Embedding of `moderation.moderate_or_pass`.  The call
`check_message_compliance(message)` goes to the external moderation backend,
modelled as the function `classifier`. -/
def moderate_or_pass (classifier : String → ContentCompliance)
    (message : String) : Option String :=
  if (classifier message).is_violating then some moderation_warning else none

/-- C6: the gate returns a warning exactly when the verdict has
`is_violating = true`; any returned warning is the one fixed constant; and
the output of the gate depends on the verdict only through `is_violating`
(category and explanation never influence it). -/
theorem claim_C6_gate_fixed_warning (classifier : String → ContentCompliance)
    (message : String) :
    (moderate_or_pass classifier message ≠ none ↔
      (classifier message).is_violating = true) ∧
    (∀ w, moderate_or_pass classifier message = some w →
      w = moderation_warning) ∧
    (∀ g : String → ContentCompliance,
      (g message).is_violating = (classifier message).is_violating →
      moderate_or_pass g message = moderate_or_pass classifier message) := by
  refine ⟨?_, ?_, ?_⟩
  · unfold moderate_or_pass
    by_cases h : (classifier message).is_violating <;> simp [h]
  · intro w hw
    unfold moderate_or_pass at hw
    by_cases h : (classifier message).is_violating <;> simp [h] at hw
    exact hw.symm
  · intro g hg
    unfold moderate_or_pass
    rw [hg]

/-- A moderation backend that always flags the message (category `violence`). -/
def classifierFlagging : String → ContentCompliance :=
  fun _ => { is_violating := true
             category := some Category.violence
             explanation_if_violating := some "limbaj violent" }

/-- The same verdict with a different category and explanation. -/
def classifierFlaggingOther : String → ContentCompliance :=
  fun _ => { is_violating := true
             category := some Category.offensive
             explanation_if_violating := none }

theorem claim_C6_witness :
    moderate_or_pass classifierFlagging "mesaj" ≠ none ∧
    moderation_warning = moderation_warning ∧
    moderate_or_pass classifierFlaggingOther "mesaj" =
      moderate_or_pass classifierFlagging "mesaj" := by
  have h := claim_C6_gate_fixed_warning classifierFlagging "mesaj"
  exact ⟨h.1.mpr rfl, h.2.1 moderation_warning rfl,
    h.2.2 classifierFlaggingOther rfl⟩

/-- Embedding of `image_generation.prompt_from_book` (the source builds the
base prompt from adjacent f-string literals and appends the optional style
hint). -/
def prompt_from_book (title summary : String) (style_hint : Option String) :
    String :=
  let base :=
    "Ilustrație reprezentativă pentru cartea „" ++ title ++ "”. " ++
      "Teme și elemente-cheie: " ++ summary ++ " " ++
      "Imagine clară, expresivă, potrivită ca o copertă modernă. " ++
      "Fără text pe imagine, focalizare compozițională bună."
  match style_hint with
  | some s => base ++ " Stil: " ++ s ++ "."
  | none => base

/-- Outcome of one run of the background job body `_job` from
`image_generation.spawn_image_job`:
`logs` are the lines printed by the job (its only reporting channel),
`uncaught` is the exception escaping the job body (what would reach the
thread boundary and hence the control flow of the caller), and `gen_calls`
counts
invocations of the external image call `generate_image_to_file`. -/
structure JobRun where
  logs : List String
  uncaught : Option String
  gen_calls : Nat
deriving DecidableEq, Repr

/-- The `try` block of `_job`: print the start line, build the prompt, run
the external call (oracle `gen`, a Python exception modelled as
`Except.error`), print the finish line.  Returns the lines printed so far,
the escaping exception, and the number of external calls made. -/
def image_job_body (gen : String → Except String String)
    (title summary filename : String) :
    List String × Except String String × Nat :=
  let log0 := "[DEBUG] Starting image gen: " ++ title ++ " -> " ++
    filename ++ ".png"
  let img_prompt := prompt_from_book title summary none
  match gen img_prompt with
  | Except.ok path => ([log0, "[DEBUG] Finished image gen: " ++ path],
      Except.ok path, 1)
  | Except.error e => ([log0], Except.error e, 1)

/-- The whole of `_job`: the `try` block wrapped in
an except-clause that prints the fixed error line for the caught
exception. -/
def run_image_job (gen : String → Except String String)
    (title summary filename : String) : JobRun :=
  match image_job_body gen title summary filename with
  | (logs, Except.ok _, n) => { logs := logs, uncaught := none, gen_calls := n }
  | (logs, Except.error e, n) =>
      { logs := logs ++ ["[ERROR] Image generation failed: " ++ e]
        uncaught := none
        gen_calls := n }

/-- C9: for every behaviour of the external image call, the background job
body finishes with no uncaught exception (nothing reaches the spawning
control flow of the spawning caller), performs exactly one external call (no
retry), and a failure is reported only through the log lines of the job,
ending in the fixed
error line. -/
theorem claim_C9_job_failure_contained (gen : String → Except String String)
    (title summary filename : String) :
    (run_image_job gen title summary filename).uncaught = none ∧
    (run_image_job gen title summary filename).gen_calls = 1 ∧
    (∀ e, gen (prompt_from_book title summary none) = Except.error e →
      (run_image_job gen title summary filename).logs =
        ["[DEBUG] Starting image gen: " ++ title ++ " -> " ++ filename ++
          ".png",
         "[ERROR] Image generation failed: " ++ e]) := by
  refine ⟨?_, ?_, ?_⟩
  · simp only [run_image_job, image_job_body]
    rcases hgen : gen (prompt_from_book title summary none) with p | e <;>
      simp [hgen]
  · simp only [run_image_job, image_job_body]
    rcases hgen : gen (prompt_from_book title summary none) with p | e <;>
      simp [hgen]
  · intro e he
    simp only [run_image_job, image_job_body]
    rw [he]
    rfl

theorem claim_C9_witness :
    (run_image_job (fun _ => Except.error "boom") "1984" "rezumat" "1984").uncaught
        = none ∧
    (run_image_job (fun _ => Except.error "boom") "1984" "rezumat" "1984").gen_calls
        = 1 ∧
    (run_image_job (fun _ => Except.error "boom") "1984" "rezumat" "1984").logs =
      ["[DEBUG] Starting image gen: " ++ "1984" ++ " -> " ++ "1984" ++ ".png",
       "[ERROR] Image generation failed: " ++ "boom"] := by
  have h := claim_C9_job_failure_contained (fun _ => Except.error "boom")
    "1984" "rezumat" "1984"
  exact ⟨h.1, h.2.1, h.2.2 "boom" rfl⟩

/-- `llm_tools.book_summaries_dict`: the local Item store of full summaries
(Python dict modelled as an association list; adjacent source literals
concatenated). -/
def book_summaries_dict : List (String × String) :=
  [("1984",
    "O poveste distopică despre o societate totalitară controlată prin supraveghere, " ++
      "propagandă și poliția gândirii. Winston Smith, protagonistul, se revoltă în secret " ++
      "împotriva sistemului în căutarea adevărului și a libertății."),
   ("The Hobbit",
    "O poveste plină de aventuri în care hobbitul Bilbo Baggins pornește într-o călătorie " ++
      "neașteptată. Tema principală este prietenia și curajul descoperit în situații neașteptate."),
   ("To Kill a Mockingbird",
    "Un roman emoționant plasat în Sudul american segregat. Scout Finch își povestește copilăria " ++
      "în timp ce tatăl ei, Atticus, apără un bărbat de culoare acuzat pe nedrept. " ++
      "Teme: justiție, moralitate și empatie."),
   ("Pride and Prejudice",
    "Un roman clasic care explorează iubirea, clasa socială și dezvoltarea personală. " ++
      "Elizabeth Bennet învață să-și depășească prejudecățile, iar domnul Darcy învață " ++
      "modestia și respectul."),
   ("Micul Prinț",
    "O poveste filosofică despre un mic prinț venit de pe o planetă îndepărtată. " ++
      "Explorează teme precum inocența copilăriei, iubirea și sensul vieții."),
   ("The Great Gatsby",
    "O poveste tragică despre iubire și ambiție în Epoca Jazzului. Urmărirea lui Jay Gatsby a lui Daisy " ++
      "reflectă fragilitatea Visului American. Teme: bogăție, iluzie și dorință."),
   ("Fahrenheit 451",
    "Un roman distopic în care cărțile sunt interzise și arse. Pompierul Guy Montag pune sub semnul " ++
      "întrebării societatea și caută cunoașterea. Teme: cenzură, libertate și revoltă."),
   ("Don Quixote",
    "Considerat primul roman modern, spune povestea unui om care crede că este cavaler și pornește " ++
      "în aventuri absurde. Teme: idealism, realitate și imaginație."),
   ("Jane Eyre",
    "Drumul unei fete orfane care devine guvernantă. Reziliența și forța morală ale lui Jane " ++
      "o ajută să treacă prin iubire, greutăți și căutarea independenței."),
   ("Frankenstein",
    "Victor Frankenstein creează o ființă vie din materie moartă, doar pentru a fi îngrozit de rezultat. " ++
      "Teme: ambiție, responsabilitate și consecințele științei necontrolate.")]

/-- `llm_tools.get_summary_by_title`: dict lookup, falling back to a friendly
error message when the title is absent (or its stored summary falsy). -/
def get_summary_by_title (title : String) : String :=
  match List.lookup title book_summaries_dict with
  | some summary =>
      if summary = "" then "Cartea " ++ title ++ " nu există." else summary
  | none => "Cartea " ++ title ++ " nu există."

/-- A retrieval candidate as consumed by `llm.py` (`c["title"]`,
`c["snippet"]` are the only fields it reads). -/
structure LlmCandidate where
  title : String
  snippet : String
deriving DecidableEq, Repr

/-- A chat message, reduced to the fields this embedding observes. -/
structure Message where
  role : String
  content : String
deriving DecidableEq, Repr

/-- A tool call requested by the model.  `args` is the result of
`json.loads` applied to `tool_call.function.arguments`, modelled as the parsed
association list (JSON decoding itself is external-format detail). -/
structure ToolCall where
  id : String
  name : String
  args : List (String × String)
deriving DecidableEq, Repr

/-- The first choice of a chat completion: finish reason, assistant text
(`""` conflates Python `None`, faithful since the source only tests this
field with `or`), and the requested tool calls (empty list conflates Python
`None`). -/
structure LLMChoice where
  finish_reason : String
  content : String
  tool_calls : List ToolCall
deriving Repr

/-- The generative backend of `llm.py`, modelled as the two chat-completion
calls the orchestrator can make: the initial call (with the tool schema) and
the follow-up call after a tool result, each a function of the conversation
so far. -/
structure LLMBackend where
  first : List Message → LLMChoice
  followup : List Message → String

/-- Observable outcome of one orchestration call: the returned narrative
string, the titles passed to `get_summary_by_title` (in execution order),
and the number of follow-up generation calls made. -/
structure OrchResult where
  narrative : String
  tool_execs : List String
  followup_calls : Nat
deriving DecidableEq, Repr

/-- Python `x or default` on a string whose `None` is conflated with `""`. -/
def pyOrStr (s d : String) : String := if s = "" then d else s

/-- Embedding of `llm._build_messages`. -/
def build_messages (user_query : String) (candidates : List LlmCandidate) :
    List Message :=
  let system_msg :=
    "You are a helpful literary assistant. " ++
      "Your output MUST be in Romanian. " ++
      "You receive the user\x27s request and a list of candidate books from a vector search. " ++
      "Choose the single best recommendation and justify it briefly (2–4 reasons). " ++
      "Be concise, friendly, and name the exact book title. " ++
      "If the user asks for a full summary of an exact title, use the provided tool."
  let context_lines := candidates.map (fun c => "- " ++ c.title ++ ": " ++ c.snippet)
  let context_block :=
    "Candidați (din căutare semantică):\n" ++ String.intercalate "\n" context_lines
  let user_msg :=
    "Cerere: " ++ user_query ++ "\n\n" ++ context_block ++
      "\n\nAlege cea mai potrivită carte și explică pe scurt de ce."
  [{ role := "system", content := system_msg },
   { role := "user", content := user_msg }]

/-- Embedding of `llm._handle_tool_call_once`: execute the (single) requested
tool call if it is the supported one, append the tool result to the
conversation and make exactly one follow-up generation call; for any other
tool name, execute nothing and return the fixed failure narrative.  (In the
source the follow-up text goes through `content or ""`, the identity under
the `None` = `""` conflation.) -/
def handle_tool_call_once (backend : LLMBackend) (messages : List Message)
    (tc : ToolCall) : OrchResult :=
  if tc.name = "get_summary_by_title" then
    let title := (List.lookup "title" tc.args).getD ""
    let summary := get_summary_by_title title
    let messages2 := messages ++ [{ role := "tool", content := summary }]
    { narrative := backend.followup messages2
      tool_execs := [title]
      followup_calls := 1 }
  else
    { narrative := "Nu am putut apela uneltele necesare pentru acest răspuns."
      tool_execs := []
      followup_calls := 0 }

/-- Embedding of `llm.make_llm_recommendation`: build the messages, make the
first generation call, branch on `finish_reason == "tool_calls" and
message.tool_calls`, honouring only the first requested tool call; otherwise
return `content or "Nu am un răspuns momentan."`. -/
def make_llm_recommendation (backend : LLMBackend) (user_query : String)
    (candidates : List LlmCandidate) : OrchResult :=
  let messages := build_messages user_query candidates
  let choice := backend.first messages
  if choice.finish_reason = "tool_calls" then
    match choice.tool_calls with
    | tc :: _ =>
        handle_tool_call_once backend
          (messages ++ [{ role := "assistant", content := choice.content }]) tc
    | [] =>
        { narrative := pyOrStr choice.content "Nu am un răspuns momentan."
          tool_execs := []
          followup_calls := 0 }
  else
    { narrative := pyOrStr choice.content "Nu am un răspuns momentan."
      tool_execs := []
      followup_calls := 0 }

/-- Python tuple unpacking `a, b, c = s` applied to a string `s`, as done by
the callers `app.main` and `server.chat` with the value returned by
`make_llm_recommendation`: iterating a string yields its characters, so the
unpacking succeeds only when the string has exactly three characters;
otherwise a `ValueError` is raised (modelled as `none`). -/
def pyUnpack3 (s : String) : Option (String × String × String) :=
  match s.toList with
  | [a, b, c] => some (⟨[a]⟩, ⟨[b]⟩, ⟨[c]⟩)
  | _ => none

/-- C3: when the backend requests tool calls, only the first one is
considered; if it names the supported tool it is executed once followed by
exactly one follow-up generation call, and if it names anything else nothing
is executed, no follow-up call is made, and the fixed failure narrative is
returned. -/
theorem claim_C3_tool_call_protocol (backend : LLMBackend) (q : String)
    (cands : List LlmCandidate) (tc : ToolCall) (rest : List ToolCall)
    (h1 : (backend.first (build_messages q cands)).finish_reason = "tool_calls")
    (h2 : (backend.first (build_messages q cands)).tool_calls = tc :: rest) :
    (tc.name = "get_summary_by_title" →
      (make_llm_recommendation backend q cands).tool_execs =
        [(List.lookup "title" tc.args).getD ""] ∧
      (make_llm_recommendation backend q cands).followup_calls = 1) ∧
    (tc.name ≠ "get_summary_by_title" →
      make_llm_recommendation backend q cands =
        { narrative := "Nu am putut apela uneltele necesare pentru acest răspuns."
          tool_execs := []
          followup_calls := 0 }) := by
  constructor
  · intro hn
    simp [make_llm_recommendation, h1, h2, handle_tool_call_once, hn]
  · intro hn
    simp [make_llm_recommendation, h1, h2, handle_tool_call_once, hn]

/-- A backend whose first response requests the supported tool for
`"The Hobbit"` and whose follow-up call answers with a fixed narrative. -/
def toolBackend : LLMBackend :=
  { first := fun _ =>
      { finish_reason := "tool_calls"
        content := ""
        tool_calls := [{ id := "call_1"
                         name := "get_summary_by_title"
                         args := [("title", "The Hobbit")] }] }
    followup := fun _ => "Îți recomand The Hobbit." }

theorem claim_C3_witness :
    (make_llm_recommendation toolBackend "Vreau o carte" []).tool_execs =
      ["The Hobbit"] ∧
    (make_llm_recommendation toolBackend "Vreau o carte" []).followup_calls = 1 := by
  have h := claim_C3_tool_call_protocol toolBackend "Vreau o carte" []
    { id := "call_1", name := "get_summary_by_title"
      args := [("title", "The Hobbit")] } [] rfl rfl
  exact h.1 rfl

/-- C1 evaluated on the code at the failing input: with an *empty* candidate
list the orchestrator still makes the generation call, still executes a
requested tool call, and returns a bare narrative string carrying no
resolved title or summary — the three-way unpacking of that string by the
callers
fails (`pyUnpack3 = none`, a `ValueError` at `app.py:42` / `server.py:65`). -/
theorem claim_C1_code_eval :
    (make_llm_recommendation toolBackend "Vreau o carte despre prietenie" []).tool_execs =
      ["The Hobbit"] ∧
    (make_llm_recommendation toolBackend "Vreau o carte despre prietenie" []).narrative =
      "Îți recomand The Hobbit." ∧
    pyUnpack3
      (make_llm_recommendation toolBackend "Vreau o carte despre prietenie" []).narrative =
      none := by
  refine ⟨rfl, rfl, rfl⟩

/-- A backend answering directly (no tool call) with a narrative that
contains the title of the second candidate. -/
def directBackend : LLMBackend :=
  { first := fun _ =>
      { finish_reason := "stop"
        content := "Îți recomand cartea The Hobbit pentru prietenie și curaj."
        tool_calls := [] }
    followup := fun _ => "" }

/-- Candidates for the C2 failing input: `"The Hobbit"` is the second
candidate and the only one named in the narrative. -/
def hobbitCands : List LlmCandidate :=
  [{ title := "1984", snippet := "sn1" }, { title := "The Hobbit", snippet := "sn2" }]

/-- C2 evaluated on the code at the failing input: the narrative names the
title of the second candidate, yet the orchestrator performs no scan of the
candidate list — its entire result is the string from the backend with no
resolved title (and the three-way unpacking of that string by the callers
fails). -/
theorem claim_C2_code_eval :
    make_llm_recommendation directBackend "Vreau o carte" hobbitCands =
      { narrative := "Îți recomand cartea The Hobbit pentru prietenie și curaj."
        tool_execs := []
        followup_calls := 0 } ∧
    pyUnpack3 "Îți recomand cartea The Hobbit pentru prietenie și curaj." = none := by
  refine ⟨rfl, rfl⟩

/-- C8 (amended): in direct mode the returned narrative is exactly the
text of the backend whenever that text is non-empty (an empty/absent text is
replaced by the fixed placeholder `"Nu am un răspuns momentan."`), and in the
tool-augmented mode it is exactly the text of the follow-up call; any
further
composition (such as appending the summary) happens in the callers. -/
theorem claim_C8_narrative_passthrough (backend : LLMBackend) (q : String)
    (cands : List LlmCandidate) :
    (((backend.first (build_messages q cands)).finish_reason ≠ "tool_calls" ∨
        (backend.first (build_messages q cands)).tool_calls = []) →
      (backend.first (build_messages q cands)).content ≠ "" →
      (make_llm_recommendation backend q cands).narrative =
        (backend.first (build_messages q cands)).content) ∧
    (∀ tc rest,
      (backend.first (build_messages q cands)).finish_reason = "tool_calls" →
      (backend.first (build_messages q cands)).tool_calls = tc :: rest →
      tc.name = "get_summary_by_title" →
      (make_llm_recommendation backend q cands).narrative =
        backend.followup (build_messages q cands ++
          [{ role := "assistant"
             content := (backend.first (build_messages q cands)).content },
           { role := "tool"
             content := get_summary_by_title
               ((List.lookup "title" tc.args).getD "") }])) := by
  constructor
  · intro hmode hcontent
    rcases hmode with hfin | htc
    · simp [make_llm_recommendation, hfin, pyOrStr, hcontent]
    · by_cases hfin : (backend.first (build_messages q cands)).finish_reason = "tool_calls" <;>
        simp [make_llm_recommendation, hfin, htc, pyOrStr, hcontent]
  · intro tc rest hfin htc hn
    simp [make_llm_recommendation, hfin, htc, handle_tool_call_once, hn,
      List.append_assoc]

theorem claim_C8_witness :
    (make_llm_recommendation directBackend "Cerere" []).narrative =
      (directBackend.first (build_messages "Cerere" [])).content := by
  have h := claim_C8_narrative_passthrough directBackend "Cerere" []
  exact h.1 (Or.inr rfl) (by decide)

/-- A backend whose direct response has empty text (Python `None`). -/
def emptyContentBackend : LLMBackend :=
  { first := fun _ => { finish_reason := "stop", content := "", tool_calls := [] }
    followup := fun _ => "" }

/-- C8 counterexample to the claim as stated: when the text of the backend is
empty (Python `None` or the empty string), the orchestrator does not return
it unmodified but substitutes the fixed placeholder. -/
theorem claim_C8_counterexample :
    (make_llm_recommendation emptyContentBackend "Cerere" []).narrative =
      "Nu am un răspuns momentan." ∧
    (make_llm_recommendation emptyContentBackend "Cerere" []).narrative ≠
      (emptyContentBackend.first (build_messages "Cerere" [])).content := by
  refine ⟨rfl, ?_⟩
  intro h
  exact absurd (h.symm.trans rfl) (by decide)

end SmartLibrarian
